import Mathlib

/-!
Shallow embedding of the per-connection session core of the
ai-live-voice-assistant backend (`Backend/src/wsHandler.js`, the version with
frame throttling, together with the error classification that wraps the
Gemini gateway calls).

External collaborators are modelled as parameters:
  * `decode : String → Option Image` models `base64ToPNG` (sharp + pngjs);
    `none` models a decode failure.
  * `pm : ℚ → Image → Image → ℕ` models `pixelmatch` applied to two
    same-dimension images: given the `threshold` option it returns the number
    of differing pixels.
  * `gw : String → Except String String` models `analyzeScreenFrame` from
    `utils/gemini.js`: `.ok text` models a successful analysis, `.error msg`
    models a thrown error whose `error.message` is `msg`.
  * `gwChat : ChatRequest → Except String String` models
    `getContextualResponse`.

JavaScript specifics carried over: `message.data || message.frame` treats the
empty string as falsy (`jsOrStr`); `split("base64,")[1]` yields the segment
between the first and second occurrence of the separator; `str.trim() === ""`
holds exactly when every character is whitespace; the regex test
`^[A-Za-z0-9+/]+=*$` on the first `min(100, length)` characters is modelled
character-by-character.
-/

namespace VoiceAssistant

/-- A conversation turn: `{role, content, timestamp}`. -/
structure ChatTurn where
  role : String
  content : String
  timestamp : String
deriving DecidableEq, Repr

/-- An entry of `screenHistory`: `{timestamp, frame (truncated), guidance, metadata}`. -/
structure ScreenStep where
  timestamp : String
  frame : String
  guidance : String
  metadata : List (String × String)
deriving DecidableEq, Repr

/-- Per-connection session state, as initialised on `connection` in
`initializeWebSocket` (throttled version). -/
structure Session where
  conversationHistory : List ChatTurn
  screenHistory : List ScreenStep
  stepHistory : List String
  userGoal : String
  isFirstMessage : Bool
  metadata : List (String × String)
  lastFrameData : Option String
  lastFrameTimestamp : Option Nat
deriving DecidableEq, Repr

/-- The session state created for a fresh connection. -/
def freshSession : Session :=
  { conversationHistory := []
    screenHistory := []
    stepHistory := []
    userGoal := ""
    isFirstMessage := true
    metadata := []
    lastFrameData := none
    lastFrameTimestamp := none }

/-- Inbound protocol message, with the duck-typed optional fields the handlers
read (`type`, `data`/`frame`, `message`/`content`, `goal`, `metadata`,
`frameData`). -/
structure InMessage where
  type : Option String := none
  data : Option String := none
  frame : Option String := none
  message : Option String := none
  content : Option String := none
  goal : Option String := none
  metadata : List (String × String) := []
  frameData : Option String := none
deriving DecidableEq, Repr

/-- Outbound messages, keyed by their `type` field (timestamps omitted:
no handler logic depends on them). -/
inductive OutMessage where
  | error (message : String) (detail : Option String)
  | status (message : String)
  | response (message : String)
  | history (conv : List ChatTurn) (screen : List ScreenStep)
  | pong
deriving DecidableEq, Repr

/-- A decoded raster image as produced by `base64ToPNG`: dimensions plus raw
pixel bytes (opaque to the handler logic). -/
structure Image where
  width : Nat
  height : Nat
  data : List Nat
deriving DecidableEq, Repr

/-- Embedding of `FRAME_COMPARISON_CONFIG` from `wsHandler.js`. -/
structure FrameComparisonConfig where
  threshold : ℚ
  minDifferentPixels : Nat
  checkIntervalMs : Nat

def FRAME_COMPARISON_CONFIG : FrameComparisonConfig :=
  { threshold := 1/10, minDifferentPixels := 1000, checkIntervalMs := 1000 }

/-! ## JavaScript string helpers -/

/-- JS truthiness of an optional string: `undefined` and `""` are falsy. -/
def truthy (o : Option String) : Option String :=
  match o with
  | some s => if s = "" then none else some s
  | none => none

/-- Embedding of `a || b` on JS string fields, normalised to `none` when falsy. -/
def jsOrStr (a b : Option String) : Option String :=
  match truthy a with
  | some s => some s
  | none => truthy b

/-- Embedding of `s.includes(pat)` for a non-empty pattern, on character lists. -/
def listContains (pat : List Char) : List Char → Bool
  | [] => pat.isEmpty
  | c :: t => List.isPrefixOf pat (c :: t) || listContains pat t

/-- Characters after the first occurrence of `pat` (assuming it occurs). -/
def afterFirst (pat : List Char) : List Char → List Char
  | [] => []
  | c :: t => if List.isPrefixOf pat (c :: t) then List.drop pat.length (c :: t)
              else afterFirst pat t

/-- Characters up to (excluding) the next occurrence of `pat`. -/
def upTo (pat : List Char) : List Char → List Char
  | [] => []
  | c :: t => if List.isPrefixOf pat (c :: t) then [] else c :: upTo pat t

/-- The separator the handler splits on: `"base64,"`. -/
def B64SEP : List Char := "base64,".toList

/-- The data-URI stripping step: `if (x.includes("base64,")) x = x.split("base64,")[1]`.
JS `split(sep)[1]` is the segment between the first and second occurrence of
`sep` (or to the end when `sep` occurs once). -/
def stripDataPrefix (s : String) : String :=
  if listContains B64SEP s.toList then
    ⟨upTo B64SEP (afterFirst B64SEP s.toList)⟩
  else s

/-- Embedding of the `s.trim() === ""` test: every character is whitespace (true for `""`). -/
def jsTrimEmpty (s : String) : Bool :=
  s.toList.all Char.isWhitespace

/-- Membership in the regex character class `[A-Za-z0-9+/]`. -/
def isB64Char (c : Char) : Bool :=
  c.isAlphanum || c = '+' || c = '/'

/-- Full-match of `^[A-Za-z0-9+/]+=*$`: a non-empty run of base64 characters
followed by zero or more `=`. -/
def base64RegexTest (l : List Char) : Bool :=
  let a := l.takeWhile isB64Char
  let b := l.dropWhile isB64Char
  (!a.isEmpty) && b.all (fun c => c = '=')

/-- The sample the validator inspects: the first `min(100, length)` characters
of the prefix-stripped payload. -/
def validationSample (s : String) : List Char :=
  s.toList.take (min 100 s.toList.length)

/-! ## Frame Differ (`compareFrames`) and Throttle Gate (`shouldAnalyzeFrame`) -/

/-- Result of `compareFrames`: `{isDifferent, diffPixels}`; `diffPixels = -1`
marks the paths where pixel comparison was skipped. -/
structure DiffResult where
  isDifferent : Bool
  diffPixels : Int
deriving DecidableEq, Repr

/-- Embedding of `compareFrames(frame1, frame2)`: decode both frames; on decode failure or
a dimension mismatch report different with pixel comparison skipped; otherwise
run `pixelmatch` with the configured threshold and compare the differing-pixel
count against `minDifferentPixels`. -/
def compareFrames (decode : String → Option Image) (pm : ℚ → Image → Image → Nat)
    (frame1 frame2 : String) : DiffResult :=
  match decode frame1, decode frame2 with
  | none, _ => { isDifferent := true, diffPixels := -1 }
  | some _, none => { isDifferent := true, diffPixels := -1 }
  | some png1, some png2 =>
    if png1.width ≠ png2.width ∨ png1.height ≠ png2.height then
      { isDifferent := true, diffPixels := -1 }
    else
      let numDiffPixels := pm FRAME_COMPARISON_CONFIG.threshold png1 png2
      { isDifferent := decide (FRAME_COMPARISON_CONFIG.minDifferentPixels ≤ numDiffPixels)
        diffPixels := numDiffPixels }

/-- Embedding of `shouldAnalyzeFrame(session, currentFrame)`: analyze when no previous
analyzed frame exists; suppress when less than `checkIntervalMs` has elapsed
since the last analysis; otherwise defer to the Frame Differ. -/
def shouldAnalyzeFrame (decode : String → Option Image) (pm : ℚ → Image → Image → Nat)
    (session : Session) (currentFrame : String) (now : Nat) : Bool :=
  match session.lastFrameData with
  | none => true
  | some lastFrame =>
    let timeSinceLastAnalysis := now - (session.lastFrameTimestamp.getD 0)
    if timeSinceLastAnalysis < FRAME_COMPARISON_CONFIG.checkIntervalMs then false
    else (compareFrames decode pm lastFrame currentFrame).isDifferent

/-! ## Gateway error classification (the `catch` block of `handleScreenFrame`) -/

/-- The five error kinds the frame handler distinguishes. -/
inductive GatewayErrorClass where
  | authentication
  | quotaRateLimit
  | malformedInput
  | timeout
  | unknown
deriving DecidableEq, Repr

/-- Embedding of `s.includes(pat)` on strings. -/
def strIncludes (s pat : String) : Bool :=
  listContains pat.toList s.toList

/-- Classification of a thrown gateway error by its message, mirroring the
`if/else if` chain in the `catch` of `handleScreenFrame`. -/
def classifyFrameErrorClass (msg : String) : GatewayErrorClass :=
  if strIncludes msg "API key" then .authentication
  else if strIncludes msg "quota" || strIncludes msg "rate limit" then .quotaRateLimit
  else if strIncludes msg "invalid" || strIncludes msg "decode" then .malformedInput
  else if strIncludes msg "timeout" then .timeout
  else .unknown

/-- The human-readable `message`/`error` pair sent for each error class
(the `unknown` default keeps the raw gateway message as detail). -/
def frameErrorText (c : GatewayErrorClass) (msg : String) : String × String :=
  match c with
  | .authentication => ("AI API authentication failed", "Please check GEMINI_API_KEY in .env file")
  | .quotaRateLimit => ("AI API rate limit exceeded", "Too many requests, please wait a moment")
  | .malformedInput => ("Invalid image data", "Failed to decode base64 image")
  | .timeout => ("AI API request timeout", "Request took too long, please try again")
  | .unknown => ("Failed to analyze screen", msg)

/-- The error outbound built by the frame handler's `catch` block. -/
def classifyFrameError (msg : String) : String × String :=
  frameErrorText (classifyFrameErrorClass msg) msg

/-! ## Frame handler (`handleScreenFrame`) -/

/-- Result of handling one inbound message: the updated session, the outbound
messages sent (in order), and the number of AI Gateway invocations made.
The handlers are total and always return a live session: no path closes the
connection. -/
structure StepOutcome where
  session : Session
  outbound : List OutMessage
  gatewayCalls : Nat
deriving DecidableEq, Repr

/-- The payload the frame handler works on: `message.data || message.frame`. -/
def frameField (msg : InMessage) : Option String :=
  jsOrStr msg.data msg.frame

/-- The validated, prefix-stripped frame payload: `some b` exactly when the
handler's three validation checks pass (payload present and truthy, non-empty
after stripping and trimming, first-100-character sample matches the base64
regex). -/
def frameOf (msg : InMessage) : Option String :=
  match frameField msg with
  | none => none
  | some frameData =>
    let base64Image := stripDataPrefix frameData
    if base64Image = "" ∨ jsTrimEmpty base64Image then none
    else if ¬ base64RegexTest (validationSample base64Image) then none
    else some base64Image

/-- The tail of `handleScreenFrame` for a payload `b` that has passed all
validation checks: consult the Throttle Gate; when it says analyze, call the
gateway; only a successful gateway call updates
`lastFrameData`/`lastFrameTimestamp` and appends to `screenHistory`. -/
def analyzeStep (decode : String → Option Image) (pm : ℚ → Image → Image → Nat)
    (gw : String → Except String String) (now : Nat) (nowISO : String)
    (session : Session) (b : String) : StepOutcome :=
  if ¬ shouldAnalyzeFrame decode pm session b now then
    { session := session
      outbound := [.status "Frame unchanged - skipping analysis"]
      gatewayCalls := 0 }
  else
    match gw b with
    | .ok guidance =>
      let screenStep : ScreenStep :=
        { timestamp := nowISO
          frame := ⟨b.toList.take 100⟩ ++ "..."
          guidance := guidance
          metadata := session.metadata }
      { session :=
          { session with
            lastFrameData := some b
            lastFrameTimestamp := some now
            screenHistory := session.screenHistory ++ [screenStep] }
        outbound := [.response guidance]
        gatewayCalls := 1 }
    | .error e =>
      { session := session
        outbound := [.error (classifyFrameError e).1 (some (classifyFrameError e).2)]
        gatewayCalls := 1 }

/-- Embedding of `handleScreenFrame(sessionId, message)` of the throttled handler:
validate the payload (presence, non-emptiness after prefix stripping and
trimming, base64 sample check), then proceed to `analyzeStep`. -/
def handleScreenFrame (decode : String → Option Image) (pm : ℚ → Image → Image → Nat)
    (gw : String → Except String String) (now : Nat) (nowISO : String)
    (session : Session) (msg : InMessage) : StepOutcome :=
  match frameField msg with
  | none =>
    { session := session
      outbound := [.error "No frame data provided" (some "Frame data field is required")]
      gatewayCalls := 0 }
  | some frameData =>
    let base64Image := stripDataPrefix frameData
    if base64Image = "" ∨ jsTrimEmpty base64Image then
      { session := session
        outbound := [.error "Invalid frame data" (some "Base64 image data is empty")]
        gatewayCalls := 0 }
    else if ¬ base64RegexTest (validationSample base64Image) then
      { session := session
        outbound := [.error "Invalid frame data format"
                      (some "Base64 data appears to be corrupted or invalid")]
        gatewayCalls := 0 }
    else
      analyzeStep decode pm gw now nowISO session base64Image

/-! ## Chat handler (`handleChatMessage`) -/

/-- The argument object passed to `getContextualResponse`. -/
structure ChatRequest where
  message : String
  base64Image : Option String
  conversationHistory : List ChatTurn
  userGoal : String
  stepHistory : List String
  isFirstMessage : Bool
deriving DecidableEq, Repr

/-- The request `handleChatMessage` builds for the gateway: the conversation
history already includes the just-pushed user turn, and the goal falls back to
the chat text when unset (`userGoal || chatContent`). -/
def mkChatRequest (session : Session) (chatContent : String) (base64Image : Option String)
    (nowISO : String) : ChatRequest :=
  { message := chatContent
    base64Image := base64Image
    conversationHistory :=
      session.conversationHistory ++ [⟨"user", chatContent, nowISO⟩]
    userGoal := if session.userGoal = "" then chatContent else session.userGoal
    stepHistory := session.stepHistory
    isFirstMessage := session.isFirstMessage }

/-- The optional image attached to a chat message (`message.frameData`),
prefix-stripped when present. -/
def chatImageOf (msg : InMessage) : Option String :=
  match truthy msg.frameData with
  | some fd => some (stripDataPrefix fd)
  | none => none

/-- Embedding of `handleChatMessage(sessionId, message)`: validate the text, push the user
turn, send a processing status, call the gateway; on success set the goal on
the first message, append to `stepHistory` and push the assistant turn; on a
thrown gateway error only the already-pushed user turn remains. -/
def handleChatMessage (gwChat : ChatRequest → Except String String) (nowISO : String)
    (session : Session) (msg : InMessage) : StepOutcome :=
  match jsOrStr msg.message msg.content with
  | none =>
    { session := session
      outbound := [.error "No content provided" (some "Message field is required for chat messages")]
      gatewayCalls := 0 }
  | some chatContent =>
    let userMessage : ChatTurn := ⟨"user", chatContent, nowISO⟩
    let histWithUser := session.conversationHistory ++ [userMessage]
    match gwChat (mkChatRequest session chatContent (chatImageOf msg) nowISO) with
    | .ok responseText =>
      let afterGoal : Session :=
        if session.isFirstMessage then
          { session with userGoal := chatContent, isFirstMessage := false }
        else session
      let aiMessage : ChatTurn := ⟨"assistant", responseText, nowISO⟩
      { session :=
          { afterGoal with
            conversationHistory := histWithUser ++ [aiMessage]
            stepHistory := afterGoal.stepHistory ++ [responseText] }
        outbound := [.status "Processing your message...", .response responseText]
        gatewayCalls := 1 }
    | .error e =>
      { session := { session with conversationHistory := histWithUser }
        outbound := [.status "Processing your message...",
                     .error "Failed to get AI response" (some e)]
        gatewayCalls := 1 }

/-! ## Dispatcher (`handleWebSocketMessage`) -/

/-- Embedding of the JS spread merge of two objects: shallow merge with last-write-wins, keeping the key
order of `old` for keys present in both. -/
def jsMerge (old new : List (String × String)) : List (String × String) :=
  (old.map (fun p => ((new.find? (fun q => q.1 = p.1)).getD p).2 |> (p.1, ·))) ++
    new.filter (fun q => ¬ old.any (fun p => p.1 = q.1))

/-- Embedding of `handleWebSocketMessage(sessionId, message)`: reject a message without a
truthy `type`, then dispatch on the `type` string; unrecognised types get an
error outbound (with no `error` detail field) and no state change. -/
def handleWebSocketMessage (decode : String → Option Image) (pm : ℚ → Image → Image → Nat)
    (gw : String → Except String String) (gwChat : ChatRequest → Except String String)
    (now : Nat) (nowISO : String) (session : Session) (msg : InMessage) : StepOutcome :=
  match truthy msg.type with
  | none =>
    { session := session
      outbound := [.error "Invalid message format" (some "Message must have a 'type' field")]
      gatewayCalls := 0 }
  | some t =>
    if t = "connection" then
      { session := session, outbound := [], gatewayCalls := 0 }
    else if t = "frame" ∨ t = "screen_frame" then
      handleScreenFrame decode pm gw now nowISO session msg
    else if t = "chat" ∨ t = "chat_message" then
      handleChatMessage gwChat nowISO session msg
    else if t = "set_goal" then
      -- `session.userGoal = message.goal`: a missing goal leaves a falsy
      -- value, observationally equal to "" everywhere `userGoal` is read.
      { session := { session with userGoal := msg.goal.getD "" }
        outbound := [.status "Goal updated"]
        gatewayCalls := 0 }
    else if t = "update_metadata" then
      { session := { session with metadata := jsMerge session.metadata msg.metadata }
        outbound := []
        gatewayCalls := 0 }
    else if t = "get_history" then
      { session := session
        outbound := [.history session.conversationHistory session.screenHistory]
        gatewayCalls := 0 }
    else if t = "ping" then
      { session := session, outbound := [.pong], gatewayCalls := 0 }
    else
      { session := session
        outbound := [.error ("Unknown message type: " ++ t) none]
        gatewayCalls := 0 }

/-- The message kinds the dispatcher recognises (handles without falling into
the unknown-type default case). -/
def recognizedKinds : List String :=
  ["connection", "frame", "screen_frame", "chat", "chat_message",
   "set_goal", "update_metadata", "get_history", "ping"]

/-! ## Helper lemmas -/

/-- On a message whose payload passes validation, the frame handler reduces to
its post-validation continuation on the stripped payload. -/
theorem handleScreenFrame_of_valid
    (decode : String → Option Image) (pm : ℚ → Image → Image → Nat)
    (gw : String → Except String String) (now : Nat) (nowISO : String)
    (s : Session) (msg : InMessage) (b : String) (hb : frameOf msg = some b) :
    handleScreenFrame decode pm gw now nowISO s msg =
      analyzeStep decode pm gw now nowISO s b := by
  rcases hf : frameField msg with _ | fd
  · simp [frameOf, hf] at hb
  · simp only [frameOf, hf] at hb
    simp only [handleScreenFrame, hf]
    by_cases h1 : (stripDataPrefix fd = "" ∨ jsTrimEmpty (stripDataPrefix fd))
    · rw [if_pos h1] at hb
      exact absurd hb (by simp)
    · rw [if_neg h1] at hb
      rw [if_neg h1]
      by_cases h2 : base64RegexTest (validationSample (stripDataPrefix fd)) = true
      · rw [if_neg (by simp [h2])] at hb
        rw [if_neg (by simp [h2])]
        rw [Option.some.inj hb]
      · rw [if_pos (by simp [h2])] at hb
        exact absurd hb (by simp)

/-- A base64 character is not whitespace. -/
theorem isB64Char_not_whitespace (c : Char) (h : isB64Char c = true) :
    c.isWhitespace = false := by
  by_contra hw
  rw [Bool.not_eq_false] at hw
  simp only [Char.isWhitespace, Bool.or_eq_true, decide_eq_true_eq] at hw
  rcases hw with ((rfl | rfl) | rfl) | rfl <;> exact absurd h (by decide)

/-- A list passing the base64 regex starts with a base64 character. -/
theorem base64RegexTest_head (l : List Char) (h : base64RegexTest l = true) :
    ∃ c t, l = c :: t ∧ isB64Char c = true := by
  unfold base64RegexTest at h
  cases l with
  | nil => simp at h
  | cons c t =>
    refine ⟨c, t, rfl, ?_⟩
    by_cases hc : isB64Char c = true
    · exact hc
    · rw [List.takeWhile_cons, if_neg (by simp [hc])] at h
      simp at h

/-- The validation sample is just the 100-character prefix of the payload. -/
theorem validationSample_eq_take (s : String) :
    validationSample s = s.toList.take 100 := by
  unfold validationSample
  rcases le_total 100 s.toList.length with h | h
  · rw [min_eq_left h]
  · rw [min_eq_right h, List.take_length, List.take_of_length_le h]

/-- A payload whose 100-character sample passes the regex passes all three
validation checks, so `frameOf` returns it stripped. -/
theorem frameOf_of_sampleValid (msg : InMessage) (fd : String)
    (hfd : frameField msg = some fd)
    (hregex : base64RegexTest (validationSample (stripDataPrefix fd)) = true) :
    frameOf msg = some (stripDataPrefix fd) := by
  obtain ⟨c, t, hl, hc⟩ := base64RegexTest_head _ hregex
  rw [validationSample_eq_take] at hl
  rcases hsl : (stripDataPrefix fd).toList with _ | ⟨c', t'⟩
  · rw [hsl] at hl; simp at hl
  · rw [hsl, show (100 : ℕ) = 99 + 1 from rfl, List.take_succ_cons] at hl
    have hcc : c' = c := (List.cons.inj hl).1
    subst hcc
    have hne : stripDataPrefix fd ≠ "" := by
      intro he
      rw [he] at hsl
      exact absurd hsl (by simp [String.toList])
    have htrim : jsTrimEmpty (stripDataPrefix fd) = false := by
      unfold jsTrimEmpty
      rw [hsl, List.all_cons, isB64Char_not_whitespace c' hc, Bool.false_and]
    simp only [frameOf, hfd]
    rw [if_neg (by simp [hne, htrim]), if_neg (by simp [hregex])]

/-! ## Claim theorems -/

/-- C3: for every pair of input frames, if the two decoded images' dimensions
differ the Frame Differ reports different unconditionally with pixel
comparison skipped (`diffPixels = -1`, and the result does not depend on the
pixel comparator at all), and if either image fails to decode the result is
also different (fail open). -/
theorem differ_fail_open_on_decode_and_dimension
    (decode : String → Option Image) (pm pm' : ℚ → Image → Image → Nat)
    (f1 f2 : String) :
    (decode f1 = none ∨ decode f2 = none →
      compareFrames decode pm f1 f2 = { isDifferent := true, diffPixels := -1 }) ∧
    (∀ p1 p2, decode f1 = some p1 → decode f2 = some p2 →
      p1.width ≠ p2.width ∨ p1.height ≠ p2.height →
      compareFrames decode pm f1 f2 = { isDifferent := true, diffPixels := -1 } ∧
      compareFrames decode pm f1 f2 = compareFrames decode pm' f1 f2) := by
  constructor
  · rintro (h | h) <;> unfold compareFrames
    · rw [h]
    · rcases h1 : decode f1 with _ | p1
      · rfl
      · rw [h]
  · intro p1 p2 h1 h2 hd
    constructor
    · unfold compareFrames
      simp only [h1, h2]
      rw [if_pos hd]
    · unfold compareFrames
      simp only [h1, h2]
      rw [if_pos hd, if_pos hd]

/-- C3 witness: a decode failure and a 100×100 vs 50×50 dimension mismatch
both yield the skipped-comparison different verdict. -/
theorem differ_fail_open_witness :
    compareFrames (fun _ => (none : Option Image)) (fun _ _ _ => 0) "x" "y" =
      { isDifferent := true, diffPixels := -1 } ∧
    compareFrames
      (fun s => if s = "a" then some ⟨100, 100, []⟩ else some ⟨50, 50, []⟩)
      (fun _ _ _ => 0) "a" "b" =
      { isDifferent := true, diffPixels := -1 } :=
  ⟨(differ_fail_open_on_decode_and_dimension (fun _ => none)
      (fun _ _ _ => 0) (fun _ _ _ => 0) "x" "y").1 (Or.inl rfl),
   ((differ_fail_open_on_decode_and_dimension
      (fun s => if s = "a" then some ⟨100, 100, []⟩ else some ⟨50, 50, []⟩)
      (fun _ _ _ => 0) (fun _ _ _ => 0) "a" "b").2
      ⟨100, 100, []⟩ ⟨50, 50, []⟩ (by decide) (by decide) (Or.inl (by decide))).1⟩

/-- C4: for same-dimension, successfully decoded frames, the Frame Differ
reports different exactly when the differing-pixel count, computed by the
pixel comparator at threshold 0.1, is at least the fixed minimum of 1000 —
the decision never references the images' total pixel count. -/
theorem differ_threshold_decision
    (decode : String → Option Image) (pm : ℚ → Image → Image → Nat)
    (f1 f2 : String) (p1 p2 : Image)
    (h1 : decode f1 = some p1) (h2 : decode f2 = some p2)
    (hw : p1.width = p2.width) (hh : p1.height = p2.height) :
    compareFrames decode pm f1 f2 =
      { isDifferent := decide (1000 ≤ pm (1/10) p1 p2)
        diffPixels := (pm (1/10) p1 p2 : ℤ) } := by
  unfold compareFrames
  simp only [h1, h2]
  rw [if_neg (by simp [hw, hh])]
  rfl

/-- C4 witness: two 100×100 images with a comparator reporting 1000 differing
pixels are classified different, and the reported count is 1000. -/
theorem differ_threshold_decision_witness :
    compareFrames
      (fun s => if s = "a" then some ⟨100, 100, [1]⟩ else some ⟨100, 100, [2]⟩)
      (fun _ _ _ => 1000) "a" "b" =
      { isDifferent := true, diffPixels := 1000 } := by
  have h := differ_threshold_decision
    (fun s => if s = "a" then some ⟨100, 100, [1]⟩ else some ⟨100, 100, [2]⟩)
    (fun _ _ _ => 1000) "a" "b" ⟨100, 100, [1]⟩ ⟨100, 100, [2]⟩
    (by decide) (by decide) rfl rfl
  rw [h]
  decide

/-- C1: in a fresh session (no prior analyzed frame), a frame message whose
payload passes validation always triggers analysis: the handler's outbound is
a guidance `response` on gateway success or a classified `error` on gateway
failure — never the skipped `status`. -/
theorem first_frame_always_analyzes
    (decode : String → Option Image) (pm : ℚ → Image → Image → Nat)
    (gw : String → Except String String) (now : Nat) (nowISO : String)
    (s : Session) (msg : InMessage) (b : String)
    (hfresh : s.lastFrameData = none) (hb : frameOf msg = some b) :
    (∃ g, gw b = Except.ok g ∧
      (handleScreenFrame decode pm gw now nowISO s msg).outbound =
        [OutMessage.response g]) ∨
    (∃ e, gw b = Except.error e ∧
      (handleScreenFrame decode pm gw now nowISO s msg).outbound =
        [OutMessage.error (classifyFrameError e).1 (some (classifyFrameError e).2)]) := by
  rw [handleScreenFrame_of_valid decode pm gw now nowISO s msg b hb]
  have hgo : shouldAnalyzeFrame decode pm s b now = true := by
    unfold shouldAnalyzeFrame
    rw [hfresh]
  unfold analyzeStep
  rw [if_neg (by simp [hgo])]
  rcases hg : gw b with e | g
  · exact Or.inr ⟨e, rfl, rfl⟩
  · exact Or.inl ⟨g, rfl, rfl⟩

/-- C1 witness: the first valid frame on a fresh session with a succeeding
gateway produces a guidance response. -/
theorem first_frame_always_analyzes_witness :
    freshSession.lastFrameData = none ∧
    frameOf { type := some "frame", data := some "QUJD" } = some "QUJD" ∧
    ((∃ g, (fun (_ : String) => Except.ok (ε := String) "Click X") "QUJD" = Except.ok g ∧
      (handleScreenFrame (fun _ => none) (fun _ _ _ => 0)
        (fun _ => Except.ok "Click X") 5 "t0" freshSession
        { type := some "frame", data := some "QUJD" }).outbound =
        [OutMessage.response g]) ∨
    (∃ e, (fun (_ : String) => Except.ok (ε := String) "Click X") "QUJD" = Except.error e ∧
      (handleScreenFrame (fun _ => none) (fun _ _ _ => 0)
        (fun _ => Except.ok "Click X") 5 "t0" freshSession
        { type := some "frame", data := some "QUJD" }).outbound =
        [OutMessage.error (classifyFrameError e).1 (some (classifyFrameError e).2)])) :=
  ⟨rfl, by decide,
   first_frame_always_analyzes (fun _ => none) (fun _ _ _ => 0)
     (fun _ => Except.ok "Click X") 5 "t0" freshSession
     { type := some "frame", data := some "QUJD" } "QUJD" rfl (by decide)⟩

/-- C2: in a session with a prior analyzed frame, any valid frame arriving
less than 1000 ms after the last analysis timestamp is suppressed regardless
of content: the session is unchanged, no gateway call is made, and the client
receives the skipped `status` (not an error). -/
theorem min_interval_suppresses_frame
    (decode : String → Option Image) (pm : ℚ → Image → Image → Nat)
    (gw : String → Except String String) (now : Nat) (nowISO : String)
    (s : Session) (msg : InMessage) (b lf : String) (ts : Nat)
    (hlast : s.lastFrameData = some lf) (hts : s.lastFrameTimestamp = some ts)
    (hfast : now - ts < 1000) (hb : frameOf msg = some b) :
    handleScreenFrame decode pm gw now nowISO s msg =
      { session := s
        outbound := [OutMessage.status "Frame unchanged - skipping analysis"]
        gatewayCalls := 0 } := by
  rw [handleScreenFrame_of_valid decode pm gw now nowISO s msg b hb]
  have hskip : shouldAnalyzeFrame decode pm s b now = false := by
    unfold shouldAnalyzeFrame
    rw [hlast, hts]
    simp only [Option.getD_some]
    exact if_pos hfast
  unfold analyzeStep
  rw [if_pos (by simp [hskip])]

/-- C2 witness: a frame arriving 400 ms after the last analysis is suppressed
with a status outbound and zero gateway calls. -/
theorem min_interval_suppresses_frame_witness :
    handleScreenFrame (fun _ => none) (fun _ _ _ => 0)
      (fun _ => Except.ok "Click X") 500 "t0"
      { freshSession with lastFrameData := some "QUJD", lastFrameTimestamp := some 100 }
      { type := some "frame", data := some "RUZH" } =
      { session := { freshSession with lastFrameData := some "QUJD", lastFrameTimestamp := some 100 }
        outbound := [OutMessage.status "Frame unchanged - skipping analysis"]
        gatewayCalls := 0 } :=
  min_interval_suppresses_frame (fun _ => none) (fun _ _ _ => 0)
    (fun _ => Except.ok "Click X") 500 "t0"
    { freshSession with lastFrameData := some "QUJD", lastFrameTimestamp := some 100 }
    { type := some "frame", data := some "RUZH" } "RUZH" "QUJD" 100
    rfl rfl (by decide) (by decide)

/-- On a message that fails frame validation, the handler leaves the session
untouched, makes no gateway call, and answers with an error outbound. -/
theorem handleScreenFrame_of_invalid
    (decode : String → Option Image) (pm : ℚ → Image → Image → Nat)
    (gw : String → Except String String) (now : Nat) (nowISO : String)
    (s : Session) (msg : InMessage) (hb : frameOf msg = none) :
    (handleScreenFrame decode pm gw now nowISO s msg).session = s ∧
    (handleScreenFrame decode pm gw now nowISO s msg).gatewayCalls = 0 ∧
    ∃ m d, (handleScreenFrame decode pm gw now nowISO s msg).outbound =
      [OutMessage.error m (some d)] := by
  rcases hf : frameField msg with _ | fd
  · have hred : handleScreenFrame decode pm gw now nowISO s msg =
        { session := s
          outbound := [OutMessage.error "No frame data provided" (some "Frame data field is required")]
          gatewayCalls := 0 } := by
      simp only [handleScreenFrame, hf]
    rw [hred]
    exact ⟨rfl, rfl, _, _, rfl⟩
  · simp only [frameOf, hf] at hb
    simp only [handleScreenFrame, hf]
    by_cases h1 : (stripDataPrefix fd = "" ∨ jsTrimEmpty (stripDataPrefix fd))
    · rw [if_pos h1]
      exact ⟨rfl, rfl, _, _, rfl⟩
    · rw [if_neg h1] at hb ⊢
      by_cases h2 : base64RegexTest (validationSample (stripDataPrefix fd)) = true
      · rw [if_neg (by simp [h2])] at hb
        simp at hb
      · rw [if_pos (by simp [h2])]
        exact ⟨rfl, rfl, _, _, rfl⟩

/-- C5: the throttle state (`lastFrameData`/`lastFrameTimestamp`) is either
left exactly as it was — which covers suppressed frames, frames rejected by
validation, and failed gateway calls — or an analysis actually ran (payload
valid, Throttle Gate said analyze, gateway succeeded) and it was overwritten
with the just-analyzed frame and the current time. -/
theorem throttle_state_updates_only_on_success
    (decode : String → Option Image) (pm : ℚ → Image → Image → Nat)
    (gw : String → Except String String) (now : Nat) (nowISO : String)
    (s : Session) (msg : InMessage) :
    ((handleScreenFrame decode pm gw now nowISO s msg).session.lastFrameData =
        s.lastFrameData ∧
     (handleScreenFrame decode pm gw now nowISO s msg).session.lastFrameTimestamp =
        s.lastFrameTimestamp) ∨
    (∃ b g, frameOf msg = some b ∧ shouldAnalyzeFrame decode pm s b now = true ∧
      gw b = Except.ok g ∧
      (handleScreenFrame decode pm gw now nowISO s msg).session.lastFrameData = some b ∧
      (handleScreenFrame decode pm gw now nowISO s msg).session.lastFrameTimestamp =
        some now) := by
  rcases hb : frameOf msg with _ | b
  · obtain ⟨hs, -, -⟩ := handleScreenFrame_of_invalid decode pm gw now nowISO s msg hb
    exact Or.inl ⟨by rw [hs], by rw [hs]⟩
  · rw [handleScreenFrame_of_valid decode pm gw now nowISO s msg b hb]
    by_cases hgo : shouldAnalyzeFrame decode pm s b now = true
    · unfold analyzeStep
      rw [if_neg (by simp [hgo])]
      rcases hg : gw b with e | g
      · exact Or.inl ⟨rfl, rfl⟩
      · exact Or.inr ⟨b, g, rfl, hgo, hg, rfl, rfl⟩
    · unfold analyzeStep
      rw [if_pos (by simp [Bool.not_eq_true] at hgo; simp [hgo])]
      exact Or.inl ⟨rfl, rfl⟩

/-- C10: the base64 validation inspects only the first `min(100, length)`
characters of the prefix-stripped payload: whenever that sample matches the
regex the frame passes validation — whatever the rest of the payload looks
like — and proceeds to the Throttle Gate and analysis, so the outcome is the
skipped status, a guidance response, or a classified gateway error, never a
validation rejection. -/
theorem validation_inspects_sample_only
    (decode : String → Option Image) (pm : ℚ → Image → Image → Nat)
    (gw : String → Except String String) (now : Nat) (nowISO : String)
    (s : Session) (msg : InMessage) (fd : String)
    (hfd : frameField msg = some fd)
    (hregex : base64RegexTest ((stripDataPrefix fd).toList.take 100) = true) :
    frameOf msg = some (stripDataPrefix fd) ∧
    ((handleScreenFrame decode pm gw now nowISO s msg).outbound =
        [OutMessage.status "Frame unchanged - skipping analysis"] ∨
     (∃ g, gw (stripDataPrefix fd) = Except.ok g ∧
        (handleScreenFrame decode pm gw now nowISO s msg).outbound =
          [OutMessage.response g]) ∨
     (∃ e, gw (stripDataPrefix fd) = Except.error e ∧
        (handleScreenFrame decode pm gw now nowISO s msg).outbound =
          [OutMessage.error (classifyFrameError e).1 (some (classifyFrameError e).2)])) := by
  have hreg' : base64RegexTest (validationSample (stripDataPrefix fd)) = true := by
    rw [validationSample_eq_take]
    exact hregex
  have hb := frameOf_of_sampleValid msg fd hfd hreg'
  refine ⟨hb, ?_⟩
  rw [handleScreenFrame_of_valid decode pm gw now nowISO s msg _ hb]
  unfold analyzeStep
  by_cases hgo : shouldAnalyzeFrame decode pm s (stripDataPrefix fd) now = true
  · rw [if_neg (by simp [hgo])]
    rcases hg : gw (stripDataPrefix fd) with e | g
    · exact Or.inr (Or.inr ⟨e, rfl, rfl⟩)
    · exact Or.inr (Or.inl ⟨g, rfl, rfl⟩)
  · rw [if_pos (by simp [Bool.not_eq_true] at hgo; simp [hgo])]
    exact Or.inl rfl

/-- C10 witness: a payload whose first 100 characters are base64 but whose
remainder (`"###"`) is not still passes validation and reaches analysis. -/
theorem validation_inspects_sample_only_witness :
    frameOf { type := some "frame", data := some (String.mk (List.replicate 100 'A') ++ "###") } =
      some (String.mk (List.replicate 100 'A') ++ "###") ∧
    ((handleScreenFrame (fun _ => none) (fun _ _ _ => 0) (fun _ => Except.ok "Click X") 5 "t0"
        freshSession
        { type := some "frame", data := some (String.mk (List.replicate 100 'A') ++ "###") }).outbound =
        [OutMessage.status "Frame unchanged - skipping analysis"] ∨
     (∃ g, (fun (_ : String) => Except.ok (ε := String) "Click X")
          (stripDataPrefix (String.mk (List.replicate 100 'A') ++ "###")) = Except.ok g ∧
        (handleScreenFrame (fun _ => none) (fun _ _ _ => 0) (fun _ => Except.ok "Click X") 5 "t0"
          freshSession
          { type := some "frame", data := some (String.mk (List.replicate 100 'A') ++ "###") }).outbound =
          [OutMessage.response g]) ∨
     (∃ e, (fun (_ : String) => Except.ok (ε := String) "Click X")
          (stripDataPrefix (String.mk (List.replicate 100 'A') ++ "###")) = Except.error e ∧
        (handleScreenFrame (fun _ => none) (fun _ _ _ => 0) (fun _ => Except.ok "Click X") 5 "t0"
          freshSession
          { type := some "frame", data := some (String.mk (List.replicate 100 'A') ++ "###") }).outbound =
          [OutMessage.error (classifyFrameError e).1 (some (classifyFrameError e).2)])) := by
  have h := validation_inspects_sample_only (fun _ => none) (fun _ _ _ => 0)
    (fun _ => Except.ok "Click X") 5 "t0" freshSession
    { type := some "frame", data := some (String.mk (List.replicate 100 'A') ++ "###") }
    (String.mk (List.replicate 100 'A') ++ "###") (by decide) (by decide)
  have hstrip : stripDataPrefix (String.mk (List.replicate 100 'A') ++ "###") =
      String.mk (List.replicate 100 'A') ++ "###" := by decide
  rw [hstrip] at h
  exact h

/-- Once `isFirstMessage` is false, no chat-handling path writes `userGoal`. -/
theorem handleChatMessage_goal_stable (gwChat : ChatRequest → Except String String)
    (nowISO : String) (s : Session) (m : InMessage) (h : s.isFirstMessage = false) :
    (handleChatMessage gwChat nowISO s m).session.userGoal = s.userGoal := by
  unfold handleChatMessage
  rcases ht : jsOrStr m.message m.content with _ | t
  · rfl
  · rcases hg : gwChat (mkChatRequest s t (chatImageOf m) nowISO) with e | r
    · simp [hg]
    · simp [hg, h]

/-- C6: on a fresh session (first-message flag set), successfully processing
the first chat message stores exactly its text as `userGoal` and clears
`isFirstMessage`; handling any second chat message afterwards — whatever its
content and whatever the gateway does — leaves `userGoal` at that text. -/
theorem first_chat_sets_goal
    (gwChat gwChat2 : ChatRequest → Except String String) (iso1 iso2 : String)
    (s : Session) (m1 m2 : InMessage) (t1 r1 : String)
    (hfresh : s.isFirstMessage = true)
    (ht1 : jsOrStr m1.message m1.content = some t1)
    (hok : gwChat (mkChatRequest s t1 (chatImageOf m1) iso1) = Except.ok r1) :
    (handleChatMessage gwChat iso1 s m1).session.userGoal = t1 ∧
    (handleChatMessage gwChat iso1 s m1).session.isFirstMessage = false ∧
    (handleChatMessage gwChat2 iso2 (handleChatMessage gwChat iso1 s m1).session m2).session.userGoal = t1 := by
  have hs1 : (handleChatMessage gwChat iso1 s m1).session.userGoal = t1 ∧
      (handleChatMessage gwChat iso1 s m1).session.isFirstMessage = false := by
    constructor <;> simp [handleChatMessage, ht1, hok, hfresh]
  refine ⟨hs1.1, hs1.2, ?_⟩
  rw [handleChatMessage_goal_stable gwChat2 iso2 _ m2 hs1.2]
  exact hs1.1

/-- C6 witness: the first chat message "Help me deploy a website" becomes the
goal, the flag clears, and a second chat message leaves the goal intact. -/
theorem first_chat_sets_goal_witness :
    (handleChatMessage (fun _ => Except.ok "Step 1") "t0" freshSession
      { type := some "chat", message := some "Help me deploy a website" }).session.userGoal =
      "Help me deploy a website" ∧
    (handleChatMessage (fun _ => Except.ok "Step 1") "t0" freshSession
      { type := some "chat", message := some "Help me deploy a website" }).session.isFirstMessage = false ∧
    (handleChatMessage (fun _ => Except.ok "Step 2") "t1"
      (handleChatMessage (fun _ => Except.ok "Step 1") "t0" freshSession
        { type := some "chat", message := some "Help me deploy a website" }).session
      { type := some "chat", message := some "Now what?" }).session.userGoal =
      "Help me deploy a website" :=
  first_chat_sets_goal (fun _ => Except.ok "Step 1") (fun _ => Except.ok "Step 2")
    "t0" "t1" freshSession
    { type := some "chat", message := some "Help me deploy a website" }
    { type := some "chat", message := some "Now what?" }
    "Help me deploy a website" "Step 1" rfl (by decide) rfl

/-- C7: a gateway failure during frame handling makes exactly one gateway
call (no automatic retry), leaves the session untouched, and is surfaced as a
single error outbound whose headline is one of the five classified
human-readable messages (authentication, quota/rate-limit, malformed input,
timeout, unknown); afterwards the session is still usable — a subsequent
valid frame that the Throttle Gate admits and a succeeding gateway turn into
a normal guidance response. -/
theorem gateway_failure_classified_nonfatal
    (decode : String → Option Image) (pm : ℚ → Image → Image → Nat)
    (gw gw2 : String → Except String String) (now now2 : Nat) (nowISO nowISO2 : String)
    (s : Session) (msg msg2 : InMessage) (b e : String)
    (hb : frameOf msg = some b)
    (hgo : shouldAnalyzeFrame decode pm s b now = true)
    (herr : gw b = Except.error e) :
    (handleScreenFrame decode pm gw now nowISO s msg).gatewayCalls = 1 ∧
    (handleScreenFrame decode pm gw now nowISO s msg).session = s ∧
    (handleScreenFrame decode pm gw now nowISO s msg).outbound =
      [OutMessage.error (classifyFrameError e).1 (some (classifyFrameError e).2)] ∧
    (classifyFrameError e).1 ∈
      ["AI API authentication failed", "AI API rate limit exceeded", "Invalid image data",
       "AI API request timeout", "Failed to analyze screen"] ∧
    (∀ b2 g2, frameOf msg2 = some b2 →
      shouldAnalyzeFrame decode pm (handleScreenFrame decode pm gw now nowISO s msg).session b2 now2 = true →
      gw2 b2 = Except.ok g2 →
      (handleScreenFrame decode pm gw2 now2 nowISO2
        (handleScreenFrame decode pm gw now nowISO s msg).session msg2).outbound =
        [OutMessage.response g2]) := by
  have hred : handleScreenFrame decode pm gw now nowISO s msg =
      { session := s
        outbound := [OutMessage.error (classifyFrameError e).1 (some (classifyFrameError e).2)]
        gatewayCalls := 1 } := by
    rw [handleScreenFrame_of_valid decode pm gw now nowISO s msg b hb]
    unfold analyzeStep
    rw [if_neg (by simp [hgo]), herr]
  rw [hred]
  refine ⟨rfl, rfl, rfl, ?_, ?_⟩
  · unfold classifyFrameError
    cases hcl : classifyFrameErrorClass e <;> simp [frameErrorText, hcl]
  · intro b2 g2 hb2 hgo2 hok2
    rw [handleScreenFrame_of_valid decode pm gw2 now2 nowISO2 s msg2 b2 hb2]
    unfold analyzeStep
    rw [if_neg (by simp [hgo2]), hok2]

/-- C7 witness: a timeout-worded gateway failure on a fresh session yields the
classified timeout error, one gateway call, an unchanged session, and a later
successful frame still produces guidance. -/
theorem gateway_failure_classified_nonfatal_witness :
    (handleScreenFrame (fun _ => none) (fun _ _ _ => 0)
      (fun _ => Except.error "Gemini API request timeout. Please try again") 5 "t0"
      freshSession { type := some "frame", data := some "QUJD" }).gatewayCalls = 1 ∧
    (handleScreenFrame (fun _ => none) (fun _ _ _ => 0)
      (fun _ => Except.error "Gemini API request timeout. Please try again") 5 "t0"
      freshSession { type := some "frame", data := some "QUJD" }).session = freshSession ∧
    (handleScreenFrame (fun _ => none) (fun _ _ _ => 0)
      (fun _ => Except.error "Gemini API request timeout. Please try again") 5 "t0"
      freshSession { type := some "frame", data := some "QUJD" }).outbound =
      [OutMessage.error "AI API request timeout" (some "Request took too long, please try again")] := by
  have h := gateway_failure_classified_nonfatal (fun _ => none) (fun _ _ _ => 0)
    (fun _ => Except.error "Gemini API request timeout. Please try again")
    (fun _ => Except.ok "Click X") 5 6 "t0" "t1" freshSession
    { type := some "frame", data := some "QUJD" }
    { type := some "frame", data := some "RUZH" } "QUJD"
    "Gemini API request timeout. Please try again"
    (by decide) (by decide) rfl
  refine ⟨h.1, h.2.1, ?_⟩
  rw [h.2.2.1]
  decide

/-- A message of kind `frame` is dispatched to the frame handler. -/
theorem handleWebSocketMessage_frame
    (decode : String → Option Image) (pm : ℚ → Image → Image → Nat)
    (gw : String → Except String String) (gwChat : ChatRequest → Except String String)
    (now : Nat) (nowISO : String) (s : Session) (msg : InMessage)
    (ht : truthy msg.type = some "frame") :
    handleWebSocketMessage decode pm gw gwChat now nowISO s msg =
      handleScreenFrame decode pm gw now nowISO s msg := by
  simp only [handleWebSocketMessage, ht]
  rw [if_neg (by decide), if_pos (by decide)]

/-- A message of kind `chat` is dispatched to the chat handler. -/
theorem handleWebSocketMessage_chat
    (decode : String → Option Image) (pm : ℚ → Image → Image → Nat)
    (gw : String → Except String String) (gwChat : ChatRequest → Except String String)
    (now : Nat) (nowISO : String) (s : Session) (msg : InMessage)
    (ht : truthy msg.type = some "chat") :
    handleWebSocketMessage decode pm gw gwChat now nowISO s msg =
      handleChatMessage gwChat nowISO s msg := by
  simp only [handleWebSocketMessage, ht]
  rw [if_neg (by decide), if_neg (by decide), if_pos (by decide)]

/-- C8 counterexample: a `chat` message with valid text whose gateway call
fails produces the error outbound but leaves the session mutated — the user
turn pushed before the gateway call stays in `conversationHistory` — so the
claimed all-fields atomicity of the gateway-failure error path is false. -/
theorem chat_gateway_failure_mutates_history :
    (handleChatMessage (fun _ => Except.error "boom") "t0" freshSession
      { type := some "chat", message := some "hi" }).outbound =
      [OutMessage.status "Processing your message...",
       OutMessage.error "Failed to get AI response" (some "boom")] ∧
    (handleChatMessage (fun _ => Except.error "boom") "t0" freshSession
      { type := some "chat", message := some "hi" }).session.conversationHistory =
      [{ role := "user", content := "hi", timestamp := "t0" }] ∧
    freshSession.conversationHistory = [] := by
  refine ⟨?_, ?_, rfl⟩ <;> rfl

/-- C8 (amended): rejected messages — missing kind, frame with empty payload,
chat with empty text — yield an error outbound with no session mutation and
no gateway call; a failed gateway call during frame handling likewise mutates
nothing; a failed gateway call during chat handling yields the error outbound
and leaves every field unchanged except that the user turn already appended
to `conversationHistory` before the call remains. No path drops the session. -/
theorem error_paths_atomicity_amended
    (decode : String → Option Image) (pm : ℚ → Image → Image → Nat)
    (gw : String → Except String String) (gwChat : ChatRequest → Except String String)
    (now : Nat) (nowISO : String) (s : Session) (msg : InMessage) :
    (truthy msg.type = none →
      handleWebSocketMessage decode pm gw gwChat now nowISO s msg =
        { session := s
          outbound := [OutMessage.error "Invalid message format" (some "Message must have a 'type' field")]
          gatewayCalls := 0 }) ∧
    (∀ fd, truthy msg.type = some "frame" → frameField msg = some fd →
      stripDataPrefix fd = "" ∨ jsTrimEmpty (stripDataPrefix fd) →
      handleWebSocketMessage decode pm gw gwChat now nowISO s msg =
        { session := s
          outbound := [OutMessage.error "Invalid frame data" (some "Base64 image data is empty")]
          gatewayCalls := 0 }) ∧
    (truthy msg.type = some "chat" → jsOrStr msg.message msg.content = none →
      handleWebSocketMessage decode pm gw gwChat now nowISO s msg =
        { session := s
          outbound := [OutMessage.error "No content provided" (some "Message field is required for chat messages")]
          gatewayCalls := 0 }) ∧
    (∀ b e, truthy msg.type = some "frame" → frameOf msg = some b →
      shouldAnalyzeFrame decode pm s b now = true → gw b = Except.error e →
      (handleWebSocketMessage decode pm gw gwChat now nowISO s msg).session = s ∧
      (handleWebSocketMessage decode pm gw gwChat now nowISO s msg).outbound =
        [OutMessage.error (classifyFrameError e).1 (some (classifyFrameError e).2)]) ∧
    (∀ t e, truthy msg.type = some "chat" → jsOrStr msg.message msg.content = some t →
      gwChat (mkChatRequest s t (chatImageOf msg) nowISO) = Except.error e →
      (handleWebSocketMessage decode pm gw gwChat now nowISO s msg).session =
        { s with conversationHistory :=
            s.conversationHistory ++ [{ role := "user", content := t, timestamp := nowISO }] } ∧
      (handleWebSocketMessage decode pm gw gwChat now nowISO s msg).outbound =
        [OutMessage.status "Processing your message...",
         OutMessage.error "Failed to get AI response" (some e)]) := by
  refine ⟨?_, ?_, ?_, ?_, ?_⟩
  · intro h
    simp only [handleWebSocketMessage, h]
  · intro fd ht hfd hemp
    rw [handleWebSocketMessage_frame decode pm gw gwChat now nowISO s msg ht]
    simp only [handleScreenFrame, hfd]
    rw [if_pos hemp]
  · intro ht hnone
    rw [handleWebSocketMessage_chat decode pm gw gwChat now nowISO s msg ht]
    simp only [handleChatMessage, hnone]
  · intro b e ht hb hgo hge
    rw [handleWebSocketMessage_frame decode pm gw gwChat now nowISO s msg ht,
      handleScreenFrame_of_valid decode pm gw now nowISO s msg b hb]
    unfold analyzeStep
    rw [if_neg (by simp [hgo]), hge]
    exact ⟨rfl, rfl⟩
  · intro t e ht htext hge
    rw [handleWebSocketMessage_chat decode pm gw gwChat now nowISO s msg ht]
    constructor <;> simp [handleChatMessage, htext, hge]

/-- C8 (amended) witness: a typeless message is rejected without mutation, and
a chat whose gateway fails keeps only the pushed user turn. -/
theorem error_paths_atomicity_amended_witness :
    handleWebSocketMessage (fun _ => none) (fun _ _ _ => 0) (fun _ => Except.ok "g")
      (fun _ => Except.error "boom") 0 "t0" freshSession {} =
      { session := freshSession
        outbound := [OutMessage.error "Invalid message format" (some "Message must have a 'type' field")]
        gatewayCalls := 0 } ∧
    (handleWebSocketMessage (fun _ => none) (fun _ _ _ => 0) (fun _ => Except.ok "g")
      (fun _ => Except.error "boom") 0 "t0" freshSession
      { type := some "chat", message := some "hi" }).session =
      { freshSession with conversationHistory := [{ role := "user", content := "hi", timestamp := "t0" }] } :=
  ⟨(error_paths_atomicity_amended (fun _ => none) (fun _ _ _ => 0) (fun _ => Except.ok "g")
      (fun _ => Except.error "boom") 0 "t0" freshSession {}).1 rfl,
   ((error_paths_atomicity_amended (fun _ => none) (fun _ _ _ => 0) (fun _ => Except.ok "g")
      (fun _ => Except.error "boom") 0 "t0" freshSession
      { type := some "chat", message := some "hi" }).2.2.2.2 "hi" "boom"
      rfl rfl rfl).1⟩

/-- C9 counterexample: the dispatcher also recognises the kind `connection`,
which is outside the protocol table's set {frame, chat, set_goal,
update_metadata, get_history, ping}, yet it produces no outbound at all — in
particular no error — so the claim that every out-of-table kind gets an error
response is false. -/
theorem connection_kind_no_error_outbound :
    ("connection" ∉ ["frame", "chat", "set_goal", "update_metadata", "get_history", "ping"]) ∧
    handleWebSocketMessage (fun _ => none) (fun _ _ _ => 0) (fun _ => Except.ok "g")
      (fun _ => Except.ok "g") 0 "t0" freshSession { type := some "connection" } =
      { session := freshSession, outbound := [], gatewayCalls := 0 } := by
  exact ⟨by decide, rfl⟩

/-- C9 (amended): a message whose kind is missing, or is not one of the nine
kinds the dispatcher actually recognises (`connection`, `frame`,
`screen_frame`, `chat`, `chat_message`, `set_goal`, `update_metadata`,
`get_history`, `ping`), gets a single error outbound, an unchanged session,
and no gateway call. -/
theorem unknown_kind_rejected_amended
    (decode : String → Option Image) (pm : ℚ → Image → Image → Nat)
    (gw : String → Except String String) (gwChat : ChatRequest → Except String String)
    (now : Nat) (nowISO : String) (s : Session) (msg : InMessage)
    (h : truthy msg.type = none ∨
      ∃ t, truthy msg.type = some t ∧ t ∉ recognizedKinds) :
    ∃ m d, handleWebSocketMessage decode pm gw gwChat now nowISO s msg =
      { session := s, outbound := [OutMessage.error m d], gatewayCalls := 0 } := by
  rcases h with h | ⟨t, ht, hmem⟩
  · exact ⟨"Invalid message format", some "Message must have a 'type' field",
      by simp only [handleWebSocketMessage, h]⟩
  · simp only [recognizedKinds, List.mem_cons, List.not_mem_nil, or_false, not_or] at hmem
    obtain ⟨h1, h2, h3, h4, h5, h6, h7, h8, h9⟩ := hmem
    refine ⟨"Unknown message type: " ++ t, none, ?_⟩
    simp only [handleWebSocketMessage, ht]
    rw [if_neg h1, if_neg (by simp [h2, h3]), if_neg (by simp [h4, h5]),
      if_neg h6, if_neg h7, if_neg h8, if_neg h9]

/-- C9 (amended) witness: the unknown kind `bogus` is rejected with an error
and no state change. -/
theorem unknown_kind_rejected_amended_witness :
    ∃ m d, handleWebSocketMessage (fun _ => none) (fun _ _ _ => 0)
      (fun _ => Except.ok "g") (fun _ => Except.ok "g") 0 "t0" freshSession
      { type := some "bogus" } =
      { session := freshSession, outbound := [OutMessage.error m d], gatewayCalls := 0 } :=
  unknown_kind_rejected_amended (fun _ => none) (fun _ _ _ => 0)
    (fun _ => Except.ok "g") (fun _ => Except.ok "g") 0 "t0" freshSession
    { type := some "bogus" } (Or.inr ⟨"bogus", by decide, by decide⟩)

end VoiceAssistant
